import Mathlib

/-!
Verification development for the cognitive-memory record model and the CLI
front end of the repository.  The repository ships the unit tests of the
record types (`src/tests/unit/test_memory.py`) and the CLI
(`src/interfaces/cli.py`); the record implementation module
`cognitive_memory/core/memory.py` itself is not part of the source set, so
its operations are modelled from the specification (marked below).
Numeric fields are embedded as rationals, timestamps as rational seconds,
and the ambient clock is passed explicitly as a `now` argument.
-/

namespace CognitiveModel

/-- Modelled from the spec: the `CognitiveMemory` record type of the missing
module `cognitive_memory/core/memory.py` (spec section 3, "MemoryRecord"):
identifier, text content, hierarchy level in 0..2, type tag, creation and
last-access timestamps, access counter, importance score, the `dimensions`
facet mapping (facet name to numeric vector), the optional
`cognitive_embedding` vector, and the derived `strength` float. -/
structure CognitiveMemory where
  id : String
  content : String
  hierarchy_level : Nat
  memory_type : String
  timestamp : ℚ
  last_accessed : ℚ
  access_count : Nat
  importance_score : ℚ
  dimensions : List (String × List ℚ)
  cognitive_embedding : Option (List ℚ)
  strength : ℚ
deriving DecidableEq

/-- Modelled from the spec: `record_access()` / `update_access()` of the
missing memory module (spec section 4.1): increment `access_count` by one and
set `last_accessed` to the current time, leaving every other field alone. -/
def update_access (m : CognitiveMemory) (now : ℚ) : CognitiveMemory :=
  { m with access_count := m.access_count + 1, last_accessed := now }

/-- Elapsed seconds since last access, clamped at zero. -/
def elapsed_since_access (m : CognitiveMemory) (now : ℚ) : ℚ :=
  max (now - m.last_accessed) 0

/-- Modelled from the spec: `time_decay()` / `_calculate_time_decay()` of the
missing memory module (spec section 4.1): a smooth value in (0, 1] depending
only on elapsed time since `last_accessed`, at least about 0.9 for an access
within the last few seconds, strictly lower ten days later, and monotonically
non-increasing in elapsed time.  The spec leaves the exact curve open; the
model uses the smooth rational curve 1 / (1 + elapsed / 86400)
(one day of elapsed time halves the value). -/
def calculate_time_decay (m : CognitiveMemory) (now : ℚ) : ℚ :=
  1 / (1 + elapsed_since_access m now / 86400)

/-- Clamp a rational to the unit interval. -/
def clamp01 (x : ℚ) : ℚ := max 0 (min 1 x)

/-- Modelled from the spec: the access-history boost of
`activation_strength` (spec section 4.1 (b)): non-decreasing in
`access_count`, saturating so the result stays bounded. -/
def access_boost (c : Nat) : ℚ := min (c : ℚ) 10 / 10 * (3 / 10)

/-- Modelled from the spec: the importance boost of `activation_strength`
(spec section 4.1 (b)): proportional to `importance_score`. -/
def importance_boost (i : ℚ) : ℚ := i * (1 / 5)

/-- Modelled from the spec: `activation_strength(context_similarity)` /
`calculate_activation_strength` of the missing memory module (spec section
4.1): the similarity weighted by the temporal decay, boosted by access
history and importance, and clamped to [0, 1]. -/
def calculate_activation_strength (m : CognitiveMemory) (context_similarity : ℚ)
    (now : ℚ) : ℚ :=
  clamp01 (context_similarity * calculate_time_decay m now
    + access_boost m.access_count + importance_boost m.importance_score)

/-- Modelled from the spec: the value space of the flat serialized mapping
(spec section 6): scalar strings and numbers, a nested facet mapping of
numeric vectors, a single numeric vector, and a null for an absent
embedding. -/
inductive DictValue where
  | str (s : String)
  | num (q : ℚ)
  | nat (n : Nat)
  | vec (v : List ℚ)
  | dims (d : List (String × List ℚ))
  | null
deriving DecidableEq

/-- Modelled from the spec: `serialize()` / `to_dict()` of the missing memory
module (spec sections 4.1 and 6): a flat mapping holding every field of the
record, with `dimensions` as a nested facet mapping and `cognitive_embedding`
as a numeric sequence (null when absent). -/
def to_dict (m : CognitiveMemory) : List (String × DictValue) :=
  [ ("id", .str m.id)
  , ("content", .str m.content)
  , ("hierarchy_level", .nat m.hierarchy_level)
  , ("memory_type", .str m.memory_type)
  , ("timestamp", .num m.timestamp)
  , ("last_accessed", .num m.last_accessed)
  , ("access_count", .nat m.access_count)
  , ("importance_score", .num m.importance_score)
  , ("dimensions", .dims m.dimensions)
  , ("cognitive_embedding", match m.cognitive_embedding with
      | some v => .vec v
      | none => .null)
  , ("strength", .num m.strength) ]

/-- Modelled from the spec: `deserialize` / `from_dict` of the missing memory
module (spec sections 4.1 and 6.6): the inverse of `to_dict`, failing with a
`MalformedRecordError` message when a required field is missing or has the
wrong shape. -/
def from_dict (d : List (String × DictValue)) : Except String CognitiveMemory :=
  match d.lookup "id", d.lookup "content", d.lookup "hierarchy_level",
      d.lookup "memory_type", d.lookup "timestamp", d.lookup "last_accessed",
      d.lookup "access_count", d.lookup "importance_score",
      d.lookup "dimensions", d.lookup "cognitive_embedding",
      d.lookup "strength" with
  | some (.str i), some (.str c), some (.nat h), some (.str mt),
      some (.num ts), some (.num la), some (.nat ac), some (.num imp),
      some (.dims dm), some emb, some (.num st) =>
    match emb with
    | .vec v => .ok ⟨i, c, h, mt, ts, la, ac, imp, dm, some v, st⟩
    | .null => .ok ⟨i, c, h, mt, ts, la, ac, imp, dm, none, st⟩
    | _ => .error "MalformedRecordError"
  | _, _, _, _, _, _, _, _, _, _, _ => .error "MalformedRecordError"

/-- Modelled from the spec: the `Connection` / `MemoryConnection` edge type
(spec section 3, "Connection"): directed pair of record identifiers, a
strength mutated only by decay, a type tag, an activation counter, the
optional time of last activation, and the creation time used as the decay
reference when the connection was never activated. -/
structure MemoryConnection where
  source_id : String
  target_id : String
  connection_strength : ℚ
  connection_type : String
  activation_count : Nat
  last_activated : Option ℚ
  created_at : ℚ
deriving DecidableEq

/-- Modelled from the spec: `Connection.activate()` (spec section 4.2):
increment `activation_count` and set `last_activated` to now. -/
def activate (c : MemoryConnection) (now : ℚ) : MemoryConnection :=
  { c with activation_count := c.activation_count + 1, last_activated := some now }

/-- Modelled from the spec: `Connection.decay_strength(decay_rate)` (spec
section 4.2): move `connection_strength` downward as a function of the decay
rate and the elapsed time since `last_activated` (since creation when never
activated), never below the fixed floor 0.1; larger rate or elapsed time
gives equal-or-greater decay.  The spec leaves the curve open; the model
scales the strength by the smooth factor 1 / (1 + decay_rate * elapsed_days)
and applies the floor. -/
def decay_strength (c : MemoryConnection) (decay_rate : ℚ) (now : ℚ) :
    MemoryConnection :=
  let reference := c.last_activated.getD c.created_at
  let elapsed_days := max (now - reference) 0 / 86400
  let decayed := c.connection_strength * (1 / (1 + decay_rate * elapsed_days))
  { c with connection_strength := max decayed (1 / 10) }

/-- Modelled from the spec: the `SearchResult` aggregate (spec section 3):
a memory with its similarity score and a distance that defaults to
`1 - similarity_score` when not supplied explicitly. -/
structure SearchResult where
  memory : CognitiveMemory
  similarity_score : ℚ
  distance : ℚ

/-- Modelled from the spec: the `SearchResult` constructor, whose optional
`distance` argument defaults to the complement of the similarity. -/
def mkSearchResult (memory : CognitiveMemory) (similarity_score : ℚ)
    (distance : Option ℚ) : SearchResult :=
  ⟨memory, similarity_score, distance.getD (1 - similarity_score)⟩

/-- Modelled from the spec: the `ActivationResult` aggregate (spec section
3): core and peripheral memory lists plus per-memory activation strengths. -/
structure ActivationResult where
  core_memories : List CognitiveMemory
  peripheral_memories : List CognitiveMemory
  activation_strengths : List (String × ℚ)

/-- Modelled from the spec: `ActivationResult.total_activated`, the count of
core plus peripheral memories. -/
def total_activated (r : ActivationResult) : Nat :=
  r.core_memories.length + r.peripheral_memories.length

/-- Modelled from the spec: `ActivationResult.get_all_memories()`, the
concatenation of the core memories followed by the peripheral ones. -/
def get_all_memories (r : ActivationResult) : List CognitiveMemory :=
  r.core_memories ++ r.peripheral_memories

/-- Modelled from the spec: `ActivationResult.get_by_level(n)`, the members
of the concatenation whose `hierarchy_level` equals `n`, in order. -/
def get_by_level (r : ActivationResult) (n : Nat) : List CognitiveMemory :=
  (get_all_memories r).filter (fun m => m.hierarchy_level == n)

/-- The whitespace set of Python's default `str.strip()`:
space, tab, newline, carriage return, vertical tab and form feed. -/
def pyIsSpace (c : Char) : Bool :=
  c == ' ' || c == '\t' || c == '\n' || c == '\r' || c == '\x0b' || c == '\x0c'

/-- Python's `str.strip()` with no argument: drop leading and trailing
whitespace characters. -/
def pyStrip (s : String) : String :=
  String.mk (((s.data.dropWhile pyIsSpace).reverse.dropWhile pyIsSpace).reverse)

/-- Python truthiness of an `str | None` value: `None` and the empty string
are falsy, any other string is truthy. -/
def pyTruthyStrOpt : Option String → Bool
  | none => false
  | some s => !(s == "")

/-- Outcome of one call into the cognitive-system facade from the CLI:
either a returned value or a raised exception with its message. -/
inductive FacadeOutcome (α : Type) where
  | ok (value : α)
  | exn (msg : String)

/-- Context argument of `store_experience`: an opaque optional mapping. -/
def StoreContext := Option (List (String × String))

/-- Result of running one `CognitiveCLI` method: the returned boolean, the
lines printed, and the facade calls made, each recorded as the stored text
with its context. -/
structure CLIRun where
  ret : Bool
  output : List String
  calls : List (String × StoreContext)

/-- Embedding of `CognitiveCLI.store_experience` (src/interfaces/cli.py,
lines 35-62): an empty-after-strip text prints an error and returns False
before the facade is consulted; otherwise the facade's `store_experience` is
called once, a truthy memory id gives True, a falsy id or an exception gives
False.  The facade is passed in as a function from text and context to a
`FacadeOutcome`. -/
def store_experience
    (sys : String → StoreContext → FacadeOutcome (Option String))
    (text : String) (context : StoreContext) : CLIRun :=
  if pyStrip text == "" then
    { ret := false, output := ["Error: Empty text provided"], calls := [] }
  else
    match sys text context with
    | .ok memory_id =>
      if pyTruthyStrOpt memory_id then
        { ret := true
        , output := ["✓ Experience stored with ID: " ++ memory_id.getD ""]
        , calls := [(text, context)] }
      else
        { ret := false
        , output := ["✗ Failed to store experience"]
        , calls := [(text, context)] }
    | .exn e =>
      { ret := false
      , output := ["✗ Error storing experience: " ++ e]
      , calls := [(text, context)] }

/-- Embedding of `CognitiveCLI.clear_memories` (src/interfaces/cli.py, lines
202-215): prints the two warning lines and returns False; the cognitive
system is never touched, whatever the `memory_type` and `confirm`
arguments. -/
def clear_memories (memory_type : String) (confirm : Bool) : CLIRun :=
  { ret := false
  , output := ["⚠️  Memory clearing not implemented for safety",
               "   Use database tools directly if needed"]
  , calls := [] }

/-- A concrete well-formed memory record used to instantiate theorems. -/
def sampleMemory : CognitiveMemory :=
  { id := "mem1"
  , content := "Test memory content"
  , hierarchy_level := 1
  , memory_type := "episodic"
  , timestamp := 0
  , last_accessed := 0
  , access_count := 0
  , importance_score := 0
  , dimensions := [("emotional", [1/10, 2/10, 3/10, 4/10]), ("temporal", [1/2, 3/5, 7/10])]
  , cognitive_embedding := some [1/2, 1/3]
  , strength := 1/2 }

/-- A concrete connection used to instantiate theorems. -/
def sampleConnection : MemoryConnection :=
  { source_id := "mem1"
  , target_id := "mem2"
  , connection_strength := 9/10
  , connection_type := ""
  , activation_count := 0
  , last_activated := some 0
  , created_at := 0 }

/-- C6: one call of `update_access` increments `access_count` by exactly one,
strictly advances `last_accessed`, and changes no other field. -/
theorem update_access_spec (m : CognitiveMemory) (now : ℚ)
    (h : m.last_accessed < now) :
    (update_access m now).access_count = m.access_count + 1 ∧
    m.last_accessed < (update_access m now).last_accessed ∧
    (update_access m now).id = m.id ∧
    (update_access m now).content = m.content ∧
    (update_access m now).hierarchy_level = m.hierarchy_level ∧
    (update_access m now).memory_type = m.memory_type ∧
    (update_access m now).timestamp = m.timestamp ∧
    (update_access m now).importance_score = m.importance_score ∧
    (update_access m now).dimensions = m.dimensions ∧
    (update_access m now).cognitive_embedding = m.cognitive_embedding ∧
    (update_access m now).strength = m.strength :=
  ⟨rfl, h, rfl, rfl, rfl, rfl, rfl, rfl, rfl, rfl, rfl⟩

/-- Witness for C6 at the sample record with a later clock. -/
theorem update_access_spec_witness :
    (update_access sampleMemory 5).access_count = sampleMemory.access_count + 1 ∧
    sampleMemory.last_accessed < (update_access sampleMemory 5).last_accessed :=
  ⟨(update_access_spec sampleMemory 5 (by norm_num [sampleMemory])).1,
   (update_access_spec sampleMemory 5 (by norm_num [sampleMemory])).2.1⟩

/-- C8: a `SearchResult` built without an explicit distance gets
`1 - similarity_score` (0.85 yields 0.15), and an explicit distance is kept
unchanged; the similarity score is stored as given in both cases. -/
theorem search_result_distance_spec (mem : CognitiveMemory) (s d : ℚ) :
    (mkSearchResult mem s none).distance = 1 - s ∧
    (mkSearchResult mem s none).similarity_score = s ∧
    (mkSearchResult mem s (some d)).distance = d ∧
    (mkSearchResult mem s (some d)).similarity_score = s ∧
    (mkSearchResult mem (17/20) none).distance = 3/20 := by
  refine ⟨rfl, rfl, rfl, rfl, ?_⟩
  norm_num [mkSearchResult]

/-- C10: `clear_memories` returns False and performs no facade call, for
every `memory_type` and `confirm` combination. -/
theorem clear_memories_noop (memory_type : String) (confirm : Bool) :
    (clear_memories memory_type confirm).ret = false ∧
    (clear_memories memory_type confirm).calls = [] :=
  ⟨rfl, rfl⟩

/-- C7: `total_activated` counts core plus peripheral memories and equals the
length of `get_all_memories()`, which is the core-then-peripheral
concatenation; `get_by_level n` holds exactly the members of that
concatenation at hierarchy level `n`, in their original relative order
(it is a sublist of the concatenation). -/
theorem activation_result_spec (r : ActivationResult) (n : Nat) :
    total_activated r = r.core_memories.length + r.peripheral_memories.length ∧
    total_activated r = (get_all_memories r).length ∧
    get_all_memories r = r.core_memories ++ r.peripheral_memories ∧
    (∀ m, m ∈ get_by_level r n ↔ m ∈ get_all_memories r ∧ m.hierarchy_level = n) ∧
    (get_by_level r n).Sublist (get_all_memories r) := by
  refine ⟨rfl, ?_, rfl, ?_, ?_⟩
  · simp [total_activated, get_all_memories]
  · intro m
    simp [get_by_level, List.mem_filter]
  · exact List.filter_sublist _

/-- C2: the activation strength is clamped to the unit interval for every
similarity in [0, 1], whatever the access count and importance score. -/
theorem activation_strength_unit_range (m : CognitiveMemory) (s now : ℚ)
    (h0 : 0 ≤ s) (h1 : s ≤ 1) :
    0 ≤ calculate_activation_strength m s now ∧
    calculate_activation_strength m s now ≤ 1 := by
  unfold calculate_activation_strength clamp01
  exact ⟨le_max_left 0 _, max_le (by norm_num) (min_le_left 1 _)⟩

/-- Witness for C2 at the sample record with similarity one half. -/
theorem activation_strength_unit_range_witness :
    0 ≤ calculate_activation_strength sampleMemory (1/2) 0 ∧
    calculate_activation_strength sampleMemory (1/2) 0 ≤ 1 :=
  activation_strength_unit_range sampleMemory (1/2) 0 (by norm_num) (by norm_num)

/-- C5: for a freshly accessed record with `access_count = 5` and
`importance_score = 0.8`, the activation strength at similarity 0.9 exceeds
0.9. -/
theorem activation_strength_boost (m : CognitiveMemory) (now : ℚ)
    (hc : m.access_count = 5) (hi : m.importance_score = 4/5)
    (hf : m.last_accessed = now) :
    9/10 < calculate_activation_strength m (9/10) now := by
  unfold calculate_activation_strength clamp01 calculate_time_decay
    elapsed_since_access access_boost importance_boost
  rw [hc, hi, hf]
  norm_num

/-- Witness for C5: a fresh record with five accesses and importance 0.8. -/
theorem activation_strength_boost_witness :
    9/10 < calculate_activation_strength
      { sampleMemory with access_count := 5, importance_score := 4/5 } (9/10) 0 :=
  activation_strength_boost _ 0 rfl rfl (by norm_num [sampleMemory])

/-- The decay curve is antitone in the elapsed argument. -/
lemma one_div_one_add_div_le (a b : ℚ) (ha : 0 ≤ a) (hab : a ≤ b) :
    1 / (1 + b / 86400) ≤ 1 / (1 + a / 86400) := by
  have hpos : 0 < 1 + a / 86400 := by linarith
  have hle : 1 + a / 86400 ≤ 1 + b / 86400 := by linarith
  exact one_div_le_one_div_of_le hpos hle

/-- C3: the time decay lies in (0, 1], is above 0.9 when the last access is
at most ten seconds old, is strictly lower with the last access ten days in
the past than with an immediate access, and never increases as elapsed time
grows. -/
theorem time_decay_spec (m : CognitiveMemory) (now t1 t2 : ℚ) :
    (0 < calculate_time_decay m now ∧ calculate_time_decay m now ≤ 1) ∧
    (now - m.last_accessed ≤ 10 → 9/10 < calculate_time_decay m now) ∧
    calculate_time_decay m (m.last_accessed + 864000)
      < calculate_time_decay m m.last_accessed ∧
    (t1 ≤ t2 → calculate_time_decay m (m.last_accessed + t2)
      ≤ calculate_time_decay m (m.last_accessed + t1)) := by
  have he : (0:ℚ) ≤ elapsed_since_access m now := le_max_right _ 0
  have hd : (0:ℚ) < 1 + elapsed_since_access m now / 86400 := by linarith
  refine ⟨⟨one_div_pos.mpr hd, ?_⟩, ?_, ?_, ?_⟩
  · unfold calculate_time_decay
    rw [div_le_one hd]
    linarith
  · intro hrecent
    have hcap : elapsed_since_access m now ≤ 10 := by
      unfold elapsed_since_access
      exact max_le hrecent (by norm_num)
    have hstep : 1 / (1 + (10:ℚ) / 86400)
        ≤ 1 / (1 + elapsed_since_access m now / 86400) :=
      one_div_one_add_div_le _ _ he hcap
    unfold calculate_time_decay
    have : (9:ℚ)/10 < 1 / (1 + (10:ℚ) / 86400) := by norm_num
    linarith
  · unfold calculate_time_decay elapsed_since_access
    have h10 : m.last_accessed + 864000 - m.last_accessed = (864000:ℚ) := by ring
    have h0 : m.last_accessed - m.last_accessed = (0:ℚ) := by ring
    rw [h10, h0]
    norm_num
  · intro h12
    unfold calculate_time_decay elapsed_since_access
    have e1 : m.last_accessed + t1 - m.last_accessed = t1 := by ring
    have e2 : m.last_accessed + t2 - m.last_accessed = t2 := by ring
    rw [e1, e2]
    exact one_div_one_add_div_le _ _ (le_max_right t1 0)
      (max_le_max h12 le_rfl)

/-- Witness for C3 at the sample record: recency above 0.9 and monotone
decay between elapsed times 0 and 5. -/
theorem time_decay_spec_witness :
    9/10 < calculate_time_decay sampleMemory 0 ∧
    calculate_time_decay sampleMemory (sampleMemory.last_accessed + 5)
      ≤ calculate_time_decay sampleMemory (sampleMemory.last_accessed + 0) :=
  ⟨(time_decay_spec sampleMemory 0 0 5).2.1 (by norm_num [sampleMemory]),
   (time_decay_spec sampleMemory 0 0 5).2.2.2 (by norm_num)⟩

/-- C4: connection decay never drives the strength below the floor 0.1, for
every decay rate and clock; a connection at strength 0.9 last activated five
days (432000 seconds) before the clock, decayed at rate 0.1, loses strength
strictly while staying at or above 0.1. -/
theorem decay_strength_floor_spec (c : MemoryConnection) (decay_rate now : ℚ) :
    1/10 ≤ (decay_strength c decay_rate now).connection_strength ∧
    (c.connection_strength = 9/10 → c.last_activated = some (now - 432000) →
      (decay_strength c (1/10) now).connection_strength < 9/10 ∧
      1/10 ≤ (decay_strength c (1/10) now).connection_strength) := by
  constructor
  · unfold decay_strength
    exact le_max_right _ _
  · intro hs hl
    unfold decay_strength
    rw [hs, hl]
    have : now - (now - 432000) = (432000:ℚ) := by ring
    simp only [Option.getD_some, this]
    norm_num

/-- Witness for C4: the sample connection, five days before a clock of
432000 seconds. -/
theorem decay_strength_floor_spec_witness :
    (decay_strength sampleConnection (1/10) 432000).connection_strength < 9/10 ∧
    1/10 ≤ (decay_strength sampleConnection (1/10) 432000).connection_strength :=
  (decay_strength_floor_spec sampleConnection (1/10) 432000).2
    (by norm_num [sampleConnection]) (by norm_num [sampleConnection])

/-- C1: serializing then deserializing a record with populated dimensions and
embedding reconstructs it exactly, every field included (the rational
embedding is exact, so floating-point tolerance is met by equality). -/
theorem memory_roundtrip (r : CognitiveMemory) (e : List ℚ)
    (hemb : r.cognitive_embedding = some e) (hdims : r.dimensions ≠ []) :
    from_dict (to_dict r) = Except.ok r := by
  cases r with
  | mk i c h mt ts la ac imp dm emb st =>
    cases emb with
    | none => exact absurd hemb (by simp)
    | some v => rfl

/-- Witness for C1 at the sample record. -/
theorem memory_roundtrip_witness :
    from_dict (to_dict sampleMemory) = Except.ok sampleMemory :=
  memory_roundtrip sampleMemory [1/2, 1/3] rfl (by simp [sampleMemory])

/-- C9: a text that strips to the empty string makes `store_experience`
return False without any facade call, for every facade and context. -/
theorem store_experience_empty_guard
    (sys : String → StoreContext → FacadeOutcome (Option String))
    (text : String) (context : StoreContext)
    (h : pyStrip text = "") :
    (store_experience sys text context).ret = false ∧
    (store_experience sys text context).calls = [] := by
  simp [store_experience, h]

/-- Witness for C9: whitespace-only input against a facade that would accept
anything. -/
theorem store_experience_empty_guard_witness :
    (store_experience (fun _ _ => .ok (some "id9")) "  \t " none).ret = false ∧
    (store_experience (fun _ _ => .ok (some "id9")) "  \t " none).calls = [] :=
  store_experience_empty_guard _ "  \t " none (by rfl)

end CognitiveModel

